import Mathlib

/-!
Verification of the effects-logging core (`src/effects_logging/core.py`,
`types.py`) against its natural-language specification.  The Python code is
shallowly embedded: pure fragments become Lean functions, the handler registry
becomes an insertion-ordered association list (Python `dict` semantics), and
the stateful orchestration functions (`log`, `progressbar`) become functions
producing explicit traces of the actions they perform.
-/

namespace EffectsLogging

/-- Log levels with their numeric values (`types.py`, `LogLevel`). -/
inductive LogLevel where
  | DEBUG
  | INFO
  | WARNING
  | ERROR
  deriving DecidableEq, Repr

/-- Numeric value of a level (`LogLevel` is an `IntEnum`). -/
def LogLevel.value : LogLevel → Nat
  | .DEBUG => 0
  | .INFO => 10
  | .WARNING => 50
  | .ERROR => 100

/-- Name of a level, as Python's `level.name`. -/
def LogLevel.name : LogLevel → String
  | .DEBUG => "DEBUG"
  | .INFO => "INFO"
  | .WARNING => "WARNING"
  | .ERROR => "ERROR"

/-- Progress-bar display state (`types.py`, `ProgressBar`).  Python's `float`
`start_time` is modelled as an integer monotonic-clock reading; only its
Python truthiness (zero vs nonzero) matters to the handlers. -/
structure ProgressBar where
  bar_id : Nat
  value : Int := 0
  total : Option Int := none
  description : String := ""
  start_time : Int := 0
  deriving DecidableEq, Repr

/-- The `SetProgressBar` effect payload (`types.py`): every field other than
`bar_id` is optional, defaulting to `None`. -/
structure SetProgressBar where
  bar_id : Nat
  value : Option Int := none
  total : Option Int := none
  description : Option String := none
  start_time : Option Int := none
  deriving DecidableEq, Repr

/-- Python `a or b` for `a : int | None` merged onto a plain `int` field:
`None` and `0` are falsy, so they select `b`. -/
def pyOrInt (a : Option Int) (b : Int) : Int :=
  match a with
  | none => b
  | some v => if v = 0 then b else v

/-- Python `a or b` for `a b : int | None`: `a` is kept only when it is a
nonzero integer. -/
def pyOrOptInt (a b : Option Int) : Option Int :=
  match a with
  | none => b
  | some v => if v = 0 then b else some v

/-- Python `a or b` for `a : str | None` merged onto a plain `str` field:
`None` and the empty string are falsy. -/
def pyOrStr (a : Option String) (b : String) : String :=
  match a with
  | none => b
  | some s => if s = "" then b else s

/-- The progress-bar registry: a Python `dict` keyed by bar identifier,
preserving insertion order. -/
abbrev Registry := List (Nat × ProgressBar)

/-- Python `d[k]` lookup (first, and only, binding of the key). -/
def lookupBar : Registry → Nat → Option ProgressBar
  | [], _ => none
  | (k, pb) :: rest, i => if k = i then some pb else lookupBar rest i

/-- Python `d[k] = v` when `k` is already present: the binding keeps its
position in insertion order. -/
def updateBar : Registry → Nat → ProgressBar → Registry
  | [], _, _ => []
  | (k, pb) :: rest, i, newPb =>
      if k = i then (k, newPb) :: rest else (k, pb) :: updateBar rest i newPb

/-- Handler body of `_text_writer_set_progressbar` (`core.py` lines 200-211).
It reads `progressbars[effect.bar_id]` — an unguarded `dict` lookup that
raises `KeyError` when the bar is absent — and otherwise stores
`dc.replace(prior, value := effect.value or prior.value, ...)`, i.e. each
field is merged with Python `or` semantics. -/
def setProgressBarHandler (progressbars : Registry) (effect : SetProgressBar) :
    Except String Registry :=
  match lookupBar progressbars effect.bar_id with
  | none => .error "KeyError"
  | some pb =>
      .ok (updateBar progressbars effect.bar_id
        { pb with
          value := pyOrInt effect.value pb.value
          total := pyOrOptInt effect.total pb.total
          description := pyOrStr effect.description pb.description
          start_time := pyOrInt effect.start_time pb.start_time })

/-! ## The `log` entry point (`core.py` lines 37-55) -/

/-- Observable state of the lock object returned by `GetProgressBarLock`.
`acquireOk` is what `acquire(timeout=1.0)` returns (the code ignores it);
`lockedAtExit` is what `locked()` reports inside the `finally` block. -/
structure LockState where
  acquireOk : Bool
  lockedAtExit : Bool
  deriving DecidableEq, Repr

/-- Outcome of the mandatory `fx.send(LogMessage(...))` dispatch: a handler
ran it, no handler existed (`NoHandlerError`, which `log` catches), or the
handler raised some other exception (which `log` does not catch). -/
inductive LogDispatch where
  | handled
  | noHandler
  | raised
  deriving DecidableEq, Repr

/-- Ambient handler behaviour seen by one `log` call: whether
`safe_send(GetProgressBarLock())` returned a lock object, and how the
`LogMessage` dispatch fares.  The best-effort `safe_send` dispatches never
raise. -/
structure LogEnv where
  lock : Option LockState
  logDispatch : LogDispatch
  deriving DecidableEq, Repr

/-- Actions performed by `log`, in order: effect dispatches plus the lock
method calls. -/
inductive LogAction where
  | dispatchGetLock
  | acquireLock
  | dispatchClear
  | dispatchLogMessage
  | dispatchWrite
  | dispatchFlush
  | releaseLock
  deriving DecidableEq, Repr

/-- Whether an action is an effect dispatch (as opposed to a lock method
call). -/
def LogAction.isDispatch : LogAction → Bool
  | .acquireLock => false
  | .releaseLock => false
  | _ => true

/-- How a `log` call terminates. -/
inductive LogOutcome where
  | normal
  | exceptionPropagated
  deriving DecidableEq, Repr

/-- Result of one `log` call: the ordered action trace, the warnings issued
via `warnings.warn`, and the termination outcome. -/
structure LogResult where
  actions : List LogAction
  warns : List String
  outcome : LogOutcome
  deriving DecidableEq, Repr

/-- Python `repr` of a string message as it appears in the `{message!r}`
f-string interpolation: the message surrounded by quote characters (escaping
of quotes inside the message is immaterial to the claims and not modelled). -/
def pyRepr (s : String) : String :=
  String.singleton (Char.ofNat 39) ++ s ++ String.singleton (Char.ofNat 39)

/-- The warning text issued by `log` when `LogMessage` has no handler
(`core.py` lines 47-50). -/
def warnNoHandler (level : LogLevel) (message : String) : String :=
  "No handler processed log message (level=" ++ level.name ++ "): " ++ pyRepr message

/-- Embedding of `log` (`core.py` lines 37-55).  The code: dispatch
`GetProgressBarLock` via `safe_send`; if a lock was returned call
`acquire(timeout=1.0)` discarding its result; then inside `try`: dispatch
`ClearProgressBars`, dispatch `LogMessage` (catching only `NoHandlerError`,
turning it into a warning), dispatch `WriteProgressBars` and `FlushSink`;
in `finally`: call `release()` when a lock is present and `locked()` is
true.  A non-`NoHandlerError` exception from the `LogMessage` handler skips
the write/flush dispatches, runs the `finally` block, and propagates. -/
def logRun (env : LogEnv) (level : LogLevel) (message : String) : LogResult :=
  let pre : List LogAction :=
    LogAction.dispatchGetLock ::
      (if env.lock.isSome then [LogAction.acquireLock] else [])
  let body : List LogAction × List String × LogOutcome :=
    match env.logDispatch with
    | .handled =>
        ([.dispatchClear, .dispatchLogMessage, .dispatchWrite, .dispatchFlush],
          [], .normal)
    | .noHandler =>
        ([.dispatchClear, .dispatchLogMessage, .dispatchWrite, .dispatchFlush],
          [warnNoHandler level message], .normal)
    | .raised =>
        ([.dispatchClear, .dispatchLogMessage], [], .exceptionPropagated)
  let fin : List LogAction :=
    match env.lock with
    | some lk => if lk.lockedAtExit then [LogAction.releaseLock] else []
    | none => []
  { actions := pre ++ body.1 ++ fin, warns := body.2.1, outcome := body.2.2 }

/-! ## The `progressbar` iterator (`core.py` lines 81-122) -/

/-- What the consumer of the wrapped iterator does after receiving an item:
run its loop body and request the next item, stop iterating (which closes
the generator), or raise an exception from its loop body (which also closes
the generator and then propagates). -/
inductive ConsumerAct where
  | next
  | earlyStop
  | raiseErr
  deriving DecidableEq, Repr

/-- How the iteration ends for the caller. -/
inductive PBOutcome where
  | exhausted
  | stoppedEarly
  | consumerRaised
  deriving DecidableEq, Repr

/-- Observable events of one `progressbar` run: the effect dispatches it
performs interleaved with the items it yields. -/
inductive PBEvent (α : Type) where
  | openDispatch
  | setDispatch (e : SetProgressBar)
  | closeDispatch (bar_id : Nat)
  | yieldItem (x : α)
  deriving DecidableEq, Repr

/-- Whether an event is the `CloseProgressBar` dispatch for `bar_id`. -/
def isCloseOf (bar_id : Nat) {α : Type} : PBEvent α → Bool
  | .closeDispatch j => j == bar_id
  | _ => false

/-- Embedding of the loop of `progressbar` (`core.py` lines 107-122) after a
successful `OpenProgressBar`, starting at index `k`.  Per item: build
`SetProgressBar(bar_id, value=k, total, description)`, dispatch it via
`safe_send`, yield the item; when the consumer resumes, increment `k` and
dispatch `dc.replace(set_pbar, value=k)` (same total and description).  The
surrounding `try/finally` dispatches `CloseProgressBar(bar_id)` on every
exit: exhaustion of the list, generator close after an early stop, or a
consumer exception (thrown into the generator at the yield point, so the
post-yield update does not run); a consumer exception propagates after the
close dispatch. -/
def pbarLoop {α : Type} (bar_id : Nat) (total : Option Int)
    (desc : α → Option String) (cons : Nat → ConsumerAct) :
    List α → Nat → List (PBEvent α) × PBOutcome
  | [], _ => ([.closeDispatch bar_id], .exhausted)
  | x :: rest, k =>
      let e : SetProgressBar :=
        { bar_id := bar_id, value := some (k : Int), total := total,
          description := desc x }
      match cons k with
      | .next =>
          let r := pbarLoop bar_id total desc cons rest (k + 1)
          (.setDispatch e :: .yieldItem x ::
            .setDispatch { e with value := some ((k : Int) + 1) } :: r.1, r.2)
      | .earlyStop =>
          ([.setDispatch e, .yieldItem x, .closeDispatch bar_id], .stoppedEarly)
      | .raiseErr =>
          ([.setDispatch e, .yieldItem x, .closeDispatch bar_id], .consumerRaised)

/-- Embedding of the fallback `yield from iterable` path of `progressbar`
(`core.py` lines 104-106): items are yielded with no effect dispatches. -/
def passThrough {α : Type} (cons : Nat → ConsumerAct) :
    List α → Nat → List (PBEvent α) × PBOutcome
  | [], _ => ([], .exhausted)
  | x :: rest, k =>
      match cons k with
      | .next =>
          let r := passThrough cons rest (k + 1)
          (.yieldItem x :: r.1, r.2)
      | .earlyStop => ([.yieldItem x], .stoppedEarly)
      | .raiseErr => ([.yieldItem x], .consumerRaised)

/-- Embedding of `progressbar` (`core.py` lines 102-122).  `openResult =
none` models `fx.send(OpenProgressBar())` failing with `NoHandlerError`, in
which case the generator degrades to `yield from iterable` and returns;
`openResult = some bar_id` models a successful open returning `bar_id`.
The `openDispatch` event records that the open was attempted. -/
def progressbarRun {α : Type} (openResult : Option Nat) (total : Option Int)
    (desc : α → Option String) (cons : Nat → ConsumerAct) (xs : List α) :
    List (PBEvent α) × PBOutcome :=
  match openResult with
  | none =>
      let r := passThrough cons xs 0
      (.openDispatch :: r.1, r.2)
  | some bar_id =>
      let r := pbarLoop bar_id total desc cons xs 0
      (.openDispatch :: r.1, r.2)

/-! ## Handler-stack assembly (`core.py` lines 264-269 and 380-388) -/

/-- The effect kinds of the framework (`types.py`). -/
inductive EffectKind where
  | logMessage
  | flushSink
  | formatLogMessage
  | formatProgressBar
  | openProgressBar
  | closeProgressBar
  | setProgressBar
  | clearProgressBars
  | writeProgressBars
  | getProgressBarLock
  deriving DecidableEq, Repr

/-- Effect kinds handled by `_text_writer_file` (`core.py` lines 264-269):
log-message writing, sink flushing and log-message formatting only. -/
def textWriterFileKinds : List EffectKind :=
  [.logMessage, .flushSink, .formatLogMessage]

/-- Effect kinds handled by `_text_writer_tty` (`core.py` lines 360-377):
the file handlers plus progress-bar formatting and the progress-bar
handler stack (open/close/lock/set/write/clear, from
`_progressbar_background` or `_progressbar_foreground`). -/
def textWriterTtyKinds : List EffectKind :=
  textWriterFileKinds ++
    [.formatProgressBar, .openProgressBar, .closeProgressBar,
      .getProgressBarLock, .setProgressBar, .writeProgressBars,
      .clearProgressBars]

/-- Embedding of `text_writer` (`core.py` lines 380-388): interactive sinks
(`file.isatty()`) get the tty stack, non-interactive sinks get the plain
file stack. -/
def textWriterKinds (isatty : Bool) : List EffectKind :=
  if isatty then textWriterTtyKinds else textWriterFileKinds

/-- Modelled from the spec: the EffectBus dispatch contract of the external
`effects` library (spec section 4.1, not part of `src/`) — `send` fails with
a `NoHandler` error exactly when no handler for the effect's kind is
installed in the active stack.  Only the failure condition is modelled. -/
def sendFailsNoHandler (stack : List EffectKind) (k : EffectKind) : Bool :=
  ! stack.contains k

/-! ## Region rendering (`core.py` lines 214-235) -/

/-- Embedding of the handler body of `_text_writer_clear_progressbars`
(`core.py` lines 214-222): the strings written to the sink, in order —
`"\r"`, then `"\x1b[{n-1}A"` only when more than one bar is registered,
then `"\x1b[J"`. -/
def clearProgressBarsWrites (progressbars : Registry) : List String :=
  ["\r"] ++
    (if progressbars.length > 1 then
      ["\x1b[" ++ toString (progressbars.length - 1) ++ "A"]
    else []) ++
    ["\x1b[J"]

/-- Embedding of the handler body of `_text_writer_write_progressbars`
(`core.py` lines 225-235), with the `FormatProgressBar` dispatch for each
registered bar abstracted as `fmt`: writes `"\r"`, the formatted lines
joined by `"\n"` in registry (insertion) order, then `"\x1b[K"`. -/
def writeProgressBarsWrites (fmt : ProgressBar → String)
    (progressbars : Registry) : List String :=
  ["\r", String.intercalate "\n" (progressbars.map (fun p => fmt p.2)), "\x1b[K"]

/-- Spec-side name: carriage return to the start of the current line. -/
def carriageReturn : String := "\r"

/-- Spec-side name: ANSI cursor-up movement of `n` lines. -/
def cursorUpSeq (n : Nat) : String := "\x1b[" ++ toString n ++ "A"

/-- Spec-side name: ANSI erase from cursor to end of screen. -/
def eraseToScreenEnd : String := "\x1b[J"

/-- Spec-side name: ANSI erase from cursor to end of line. -/
def eraseToLineEnd : String := "\x1b[K"

/-- The items yielded to the consumer, in order, of a progressbar event
trace. -/
def yieldsOf {α : Type} (tr : List (PBEvent α)) : List α :=
  tr.filterMap (fun ev =>
    match ev with
    | .yieldItem x => some x
    | _ => none)

/-- Whether an event is a `SetProgressBar` or `CloseProgressBar` dispatch. -/
def isSetOrClose {α : Type} : PBEvent α → Bool
  | .setDispatch _ => true
  | .closeDispatch _ => true
  | _ => false

/-- Spec-side events for the item at zero-based position `k`, following the
specification text for `progressbar`: emit
`SetProgressBar(id, value=k, total, description)` before yielding the item,
then yield it, then after control returns emit a `SetProgressBar` with
`value = k+1`. -/
def specItemEvents {α : Type} (bar_id : Nat) (total : Option Int)
    (desc : α → Option String) (k : Nat) (x : α) : List (PBEvent α) :=
  [PBEvent.setDispatch
      { bar_id := bar_id, value := some (k : Int), total := total,
        description := desc x },
    PBEvent.yieldItem x,
    PBEvent.setDispatch
      { bar_id := bar_id, value := some ((k : Int) + 1),
        total := total, description := desc x }]

/-- Spec-side trace for a full iteration starting at position `k`: the
per-item event triples in source order. -/
def specTrace {α : Type} (bar_id : Nat) (total : Option Int)
    (desc : α → Option String) : List α → Nat → List (PBEvent α)
  | [], _ => []
  | x :: rest, k =>
      specItemEvents bar_id total desc k x ++
        specTrace bar_id total desc rest (k + 1)

/-! ## Claim C1 -/

/-- C1 counterexample: the claim states that a field present in the effect
always replaces the stored field, in particular that `value = 0` replaces the
stored value.  On a bar whose stored value is `5`, dispatching
`SetProgressBar(bar_id=1, value=0)` leaves the stored value at `5` (the
handler merges with Python `or`, which treats `0` as absent), so the result
is not the registry with value `0` that the claim requires. -/
theorem C1_counterexample :
    setProgressBarHandler
        [(1, { bar_id := 1, value := 5, total := none, description := "X",
               start_time := 0 })]
        { bar_id := 1, value := some 0 } =
      .ok [(1, { bar_id := 1, value := 5, total := none, description := "X",
                 start_time := 0 })] ∧
    ¬ setProgressBarHandler
        [(1, { bar_id := 1, value := 5, total := none, description := "X",
               start_time := 0 })]
        { bar_id := 1, value := some 0 } =
      .ok [(1, { bar_id := 1, value := 0, total := none, description := "X",
                 start_time := 0 })] := by
  constructor
  · rfl
  · intro hEq
    simp [setProgressBarHandler, lookupBar, updateBar, pyOrInt, pyOrOptInt,
      pyOrStr] at hEq

/-- C1 (amended): for an open bar, the `SetProgressBar` handler replaces a
stored field only when the corresponding effect field is present with a
truthy value (nonzero integer, nonempty string); a field that is absent or
provided with a falsy value (`None`, `0`, `""`, `0.0`) keeps its prior
stored value.  In particular setting only `value` on a bar whose stored
description is `"X"` leaves the description `"X"`. -/
theorem C1_set_truthy_merge (regs : Registry) (e : SetProgressBar)
    (pb : ProgressBar) (h : lookupBar regs e.bar_id = some pb) :
    ∃ pb2 : ProgressBar,
      setProgressBarHandler regs e = .ok (updateBar regs e.bar_id pb2) ∧
      pb2.bar_id = pb.bar_id ∧
      (∀ v : Int, e.value = some v → v ≠ 0 → pb2.value = v) ∧
      ((e.value = none ∨ e.value = some 0) → pb2.value = pb.value) ∧
      (∀ v : Int, e.total = some v → v ≠ 0 → pb2.total = some v) ∧
      ((e.total = none ∨ e.total = some 0) → pb2.total = pb.total) ∧
      (∀ s : String, e.description = some s → s ≠ "" →
        pb2.description = s) ∧
      ((e.description = none ∨ e.description = some "") →
        pb2.description = pb.description) ∧
      (∀ v : Int, e.start_time = some v → v ≠ 0 → pb2.start_time = v) ∧
      ((e.start_time = none ∨ e.start_time = some 0) →
        pb2.start_time = pb.start_time) := by
  refine ⟨{ pb with
      value := pyOrInt e.value pb.value
      total := pyOrOptInt e.total pb.total
      description := pyOrStr e.description pb.description
      start_time := pyOrInt e.start_time pb.start_time },
    by simp [setProgressBarHandler, h], rfl, ?_, ?_, ?_, ?_, ?_, ?_, ?_, ?_⟩
  · intro v hv hne
    simp [pyOrInt, hv, hne]
  · rintro (hv | hv) <;> simp [pyOrInt, hv]
  · intro v hv hne
    simp [pyOrOptInt, hv, hne]
  · rintro (hv | hv) <;> simp [pyOrOptInt, hv]
  · intro s hs hne
    simp [pyOrStr, hs, hne]
  · rintro (hs | hs) <;> simp [pyOrStr, hs]
  · intro v hv hne
    simp [pyOrInt, hv, hne]
  · rintro (hv | hv) <;> simp [pyOrInt, hv]

/-- C1 witness: the amended theorem applied to a registry holding one bar
with description `"X"` and an effect that sets only `value := 7`. -/
theorem C1_set_truthy_merge_witness :
    lookupBar
        [(1, { bar_id := 1, value := 5, total := none, description := "X",
               start_time := 0 })]
        (SetProgressBar.bar_id { bar_id := 1, value := some 7 }) =
      some { bar_id := 1, value := 5, total := none, description := "X",
             start_time := 0 } ∧
    (∃ pb2 : ProgressBar,
      setProgressBarHandler
          [(1, { bar_id := 1, value := 5, total := none, description := "X",
                 start_time := 0 })]
          { bar_id := 1, value := some 7 } =
        .ok (updateBar
          [(1, { bar_id := 1, value := 5, total := none, description := "X",
                 start_time := 0 })] 1 pb2) ∧
      pb2.bar_id = 1 ∧
      (∀ v : Int, (some 7 : Option Int) = some v → v ≠ 0 → pb2.value = v) ∧
      (((some 7 : Option Int) = none ∨ (some 7 : Option Int) = some 0) →
        pb2.value = 5) ∧
      (∀ v : Int, (none : Option Int) = some v → v ≠ 0 →
        pb2.total = some v) ∧
      (((none : Option Int) = none ∨ (none : Option Int) = some 0) →
        pb2.total = none) ∧
      (∀ s : String, (none : Option String) = some s → s ≠ "" →
        pb2.description = s) ∧
      (((none : Option String) = none ∨
          (none : Option String) = some "") → pb2.description = "X") ∧
      (∀ v : Int, (none : Option Int) = some v → v ≠ 0 →
        pb2.start_time = v) ∧
      (((none : Option Int) = none ∨ (none : Option Int) = some 0) →
        pb2.start_time = 0)) :=
  ⟨rfl,
    C1_set_truthy_merge
      [(1, { bar_id := 1, value := 5, total := none, description := "X",
             start_time := 0 })]
      { bar_id := 1, value := some 7 }
      { bar_id := 1, value := 5, total := none, description := "X",
        start_time := 0 } rfl⟩

/-! ## Claim C10 -/

/-- C10: dispatching a `SetProgressBar` effect whose `bar_id` is not present
in the registry makes the handler raise `KeyError` from the unguarded
dictionary lookup; the failure is not absorbed to a no-op. -/
theorem C10_missing_bar_raises_keyerror (regs : Registry)
    (e : SetProgressBar) (h : lookupBar regs e.bar_id = none) :
    setProgressBarHandler regs e = .error "KeyError" := by
  simp [setProgressBarHandler, h]

/-- C10 witness: the empty registry with any effect, e.g. `bar_id = 0`. -/
theorem C10_missing_bar_raises_keyerror_witness :
    lookupBar ([] : Registry)
        (SetProgressBar.bar_id { bar_id := 0 }) = none ∧
    setProgressBarHandler [] { bar_id := 0 } = .error "KeyError" :=
  ⟨rfl, C10_missing_bar_raises_keyerror [] { bar_id := 0 } rfl⟩

/-! ## Claim C3 -/

/-- C3 counterexample: the claim states that a `log` call whose lock
acquisition timed out does not release the lock.  In the code the `finally`
block releases whenever `locked()` reports true, without consulting the
(discarded) result of `acquire`: with a lock whose acquisition failed
(`acquireOk = false`) but which is still held by another thread at exit
(`lockedAtExit = true`), the call performs the release anyway. -/
theorem C3_counterexample :
    LockState.acquireOk { acquireOk := false, lockedAtExit := true } =
      false ∧
    LogAction.releaseLock ∈
      (logRun { lock := some { acquireOk := false, lockedAtExit := true },
                logDispatch := .handled } .INFO "msg").actions := by
  constructor
  · rfl
  · simp [logRun]

/-- C3 (amended): `log` releases the lock on exit if and only if a lock
object was returned and its `locked()` method reports true in the `finally`
block — independently of whether this call's bounded-timeout acquisition
succeeded; the release, when it happens, is the final action of the call,
and both directions hold regardless of whether the `LogMessage` dispatch
raised. -/
theorem C3_release_iff_locked_at_exit (env : LogEnv) (level : LogLevel)
    (message : String) :
    (LogAction.releaseLock ∈ (logRun env level message).actions ↔
      ∃ lk, env.lock = some lk ∧ lk.lockedAtExit = true) ∧
    ((logRun env level message).actions.getLast? =
        some LogAction.releaseLock ↔
      ∃ lk, env.lock = some lk ∧ lk.lockedAtExit = true) := by
  obtain ⟨lock, disp⟩ := env
  cases lock with
  | none => cases disp <;> simp [logRun]
  | some lk =>
      obtain ⟨aok, lexit⟩ := lk
      cases lexit <;> cases disp <;> cases aok <;> simp [logRun]

/-! ## Claim C4 -/

/-- C4: a `log(level, message)` call with no handler installed for any
effect never raises: `GetProgressBarLock` returns no lock, the mandatory
`LogMessage` dispatch fails with `NoHandlerError`, which is caught and
turned into a single warning naming both the level and the (repr of the)
message, and the call continues through the remaining dispatches to a
normal completion. -/
theorem C4_log_no_handlers (level : LogLevel) (message : String) :
    logRun { lock := none, logDispatch := .noHandler } level message =
      { actions := [.dispatchGetLock, .dispatchClear, .dispatchLogMessage,
          .dispatchWrite, .dispatchFlush],
        warns := ["No handler processed log message (level=" ++
          level.name ++ "): " ++ pyRepr message],
        outcome := .normal } := rfl

/-! ## Claim C6 -/

/-- C6: within a single `log` call whose `LogMessage` handler does not raise
a non-`NoHandlerError` exception, the effect dispatches happen in exactly
this order on the caller's thread: `GetProgressBarLock`,
`ClearProgressBars`, `LogMessage`, `WriteProgressBars`, `FlushSink` — the
clear precedes the log emission and the rewrite and flush follow it. -/
theorem C6_log_dispatch_order (env : LogEnv) (level : LogLevel)
    (message : String) (h : env.logDispatch ≠ .raised) :
    (logRun env level message).actions.filter LogAction.isDispatch =
      [.dispatchGetLock, .dispatchClear, .dispatchLogMessage,
        .dispatchWrite, .dispatchFlush] := by
  obtain ⟨lock, disp⟩ := env
  cases disp with
  | raised => exact absurd rfl h
  | handled =>
      cases lock with
      | none => rfl
      | some lk =>
          obtain ⟨aok, lexit⟩ := lk
          cases lexit <;> rfl
  | noHandler =>
      cases lock with
      | none => rfl
      | some lk =>
          obtain ⟨aok, lexit⟩ := lk
          cases lexit <;> rfl

/-- C6 witness: the dispatch order at a concrete environment (no lock, no
`LogMessage` handler). -/
theorem C6_log_dispatch_order_witness :
    ({ lock := none, logDispatch := .noHandler } : LogEnv).logDispatch ≠
      LogDispatch.raised ∧
    (logRun { lock := none, logDispatch := .noHandler } .INFO
        "m").actions.filter LogAction.isDispatch =
      [.dispatchGetLock, .dispatchClear, .dispatchLogMessage,
        .dispatchWrite, .dispatchFlush] :=
  ⟨by decide,
    C6_log_dispatch_order { lock := none, logDispatch := .noHandler } .INFO
      "m" (by decide)⟩

/-! ## Lemmas about the `progressbar` trace -/

/-- Fallback iteration with a consumer that always continues yields every
item, in order, and exhausts the sequence. -/
theorem passThrough_next {α : Type} (xs : List α) (k : Nat) :
    passThrough (fun _ => ConsumerAct.next) xs k =
      (xs.map PBEvent.yieldItem, PBOutcome.exhausted) := by
  induction xs generalizing k with
  | nil => rfl
  | cons x rest ih => simp [passThrough, ih]

/-- Fallback iteration dispatches no `SetProgressBar` or `CloseProgressBar`
effect, whatever the consumer does. -/
theorem passThrough_no_dispatch {α : Type} (cons : Nat → ConsumerAct)
    (xs : List α) (k : Nat) :
    (passThrough cons xs k).1.countP isSetOrClose = 0 := by
  induction xs generalizing k with
  | nil => rfl
  | cons x rest ih =>
      cases h : cons k <;>
        simp [passThrough, h, isSetOrClose, List.countP_cons, ih]

/-- The loop of `progressbar` always ends its trace with exactly one
`CloseProgressBar(bar_id)` dispatch: the trace splits as a close-free
sequence followed by the single close. -/
theorem pbarLoop_split {α : Type} (bar_id : Nat) (total : Option Int)
    (desc : α → Option String) (cons : Nat → ConsumerAct) (xs : List α)
    (k : Nat) :
    ∃ pre : List (PBEvent α),
      (pbarLoop bar_id total desc cons xs k).1 =
        pre ++ [.closeDispatch bar_id] ∧
      pre.countP (isCloseOf bar_id) = 0 := by
  induction xs generalizing k with
  | nil => exact ⟨[], rfl, rfl⟩
  | cons x rest ih =>
      cases h : cons k with
      | next =>
          obtain ⟨pre, hpre, hcount⟩ := ih (k + 1)
          refine ⟨PBEvent.setDispatch
              { bar_id := bar_id, value := some (k : Int), total := total,
                description := desc x } ::
            PBEvent.yieldItem x ::
            PBEvent.setDispatch
              { bar_id := bar_id, value := some ((k : Int) + 1),
                total := total, description := desc x } :: pre, ?_, ?_⟩
          · simp [pbarLoop, h, hpre]
          · simp [List.countP_cons, isCloseOf, hcount]
      | earlyStop =>
          refine ⟨[PBEvent.setDispatch
              { bar_id := bar_id, value := some (k : Int), total := total,
                description := desc x },
            PBEvent.yieldItem x], ?_, ?_⟩
          · simp [pbarLoop, h]
          · rfl
      | raiseErr =>
          refine ⟨[PBEvent.setDispatch
              { bar_id := bar_id, value := some (k : Int), total := total,
                description := desc x },
            PBEvent.yieldItem x], ?_, ?_⟩
          · simp [pbarLoop, h]
          · rfl

/-- With a consumer that always continues, the loop trace is exactly the
spec-side per-item trace followed by the close dispatch, and the sequence
is exhausted. -/
theorem pbarLoop_next {α : Type} (bar_id : Nat) (total : Option Int)
    (desc : α → Option String) (xs : List α) (k : Nat) :
    pbarLoop bar_id total desc (fun _ => ConsumerAct.next) xs k =
      (specTrace bar_id total desc xs k ++ [.closeDispatch bar_id],
        PBOutcome.exhausted) := by
  induction xs generalizing k with
  | nil => rfl
  | cons x rest ih => simp [pbarLoop, specTrace, specItemEvents, ih]

/-! ## Claim C2 -/

/-- C2: for every `progressbar` invocation whose `OpenProgressBar` dispatch
succeeded, exactly one `CloseProgressBar` carrying that bar's identifier is
dispatched, as the final event, on every exit path — normal exhaustion,
early termination by the consumer, or a consumer-raised exception — and a
consumer-raised exception is propagated to the caller after the close
dispatch (illustrated by the spec's example: iterating `[1,2,3,4,5]` with a
consumer that raises on the third item yields `[1,2,3]`, dispatches exactly
one close, and ends with the exception propagated). -/
theorem C2_close_exactly_once :
    (∀ (α : Type) (bar_id : Nat) (total : Option Int)
        (desc : α → Option String) (cons : Nat → ConsumerAct)
        (xs : List α),
      (progressbarRun (some bar_id) total desc cons xs).1.countP
          (isCloseOf bar_id) = 1 ∧
      (progressbarRun (some bar_id) total desc cons xs).1.getLast? =
        some (.closeDispatch bar_id)) ∧
    (yieldsOf (progressbarRun (some 7) none (fun _ => none)
        (fun k => if k < 2 then ConsumerAct.next else ConsumerAct.raiseErr)
        ([1, 2, 3, 4, 5] : List Nat)).1 = [1, 2, 3] ∧
      (progressbarRun (some 7) none (fun _ => none)
        (fun k => if k < 2 then ConsumerAct.next else ConsumerAct.raiseErr)
        ([1, 2, 3, 4, 5] : List Nat)).2 = PBOutcome.consumerRaised ∧
      (progressbarRun (some 7) none (fun _ => none)
        (fun k => if k < 2 then ConsumerAct.next else ConsumerAct.raiseErr)
        ([1, 2, 3, 4, 5] : List Nat)).1.countP (isCloseOf 7) = 1) := by
  constructor
  · intro α bar_id total desc cons xs
    obtain ⟨pre, hpre, hcount⟩ := pbarLoop_split bar_id total desc cons xs 0
    constructor
    · simp [progressbarRun, hpre, List.countP_cons, List.countP_append,
        isCloseOf, hcount]
    · show (PBEvent.openDispatch ::
          (pbarLoop bar_id total desc cons xs 0).1).getLast? = _
      rw [hpre, ← List.cons_append, List.getLast?_concat]
  · exact ⟨by decide, by decide, by decide⟩

/-! ## Claim C5 -/

/-- C5: when `OpenProgressBar` fails with `NoHandler`, iterating
`progressbar(seq)` yields exactly the elements of `seq` in their original
order and exhausts it, and — whatever the consumer does — no
`SetProgressBar` or `CloseProgressBar` effect is dispatched (the trace
holds nothing but the failed open attempt and the yields). -/
theorem C5_no_handler_pass_through {α : Type} (total : Option Int)
    (desc : α → Option String) (xs : List α) :
    (progressbarRun none total desc (fun _ => ConsumerAct.next) xs).1 =
      .openDispatch :: xs.map .yieldItem ∧
    (progressbarRun none total desc (fun _ => ConsumerAct.next) xs).2 =
      PBOutcome.exhausted ∧
    ∀ cons : Nat → ConsumerAct,
      (progressbarRun none total desc cons xs).1.countP isSetOrClose = 0 := by
  refine ⟨?_, ?_, ?_⟩
  · simp [progressbarRun, passThrough_next]
  · simp [progressbarRun, passThrough_next]
  · intro cons
    simp [progressbarRun, List.countP_cons, isSetOrClose,
      passThrough_no_dispatch]

/-! ## Claim C7 -/

/-- C7: iterating a successfully opened bar over a sequence, the trace is
exactly, in source order for each item at zero-based position `k`:
`SetProgressBar(bar_id, value=k, total, description)` dispatched before the
item is yielded, then the yield, then — after control returns — a
`SetProgressBar` with `value = k+1`; the whole iteration is these per-item
triples followed by the close dispatch. -/
theorem C7_per_item_updates {α : Type} (bar_id : Nat) (total : Option Int)
    (desc : α → Option String) (xs : List α) :
    (progressbarRun (some bar_id) total desc (fun _ => ConsumerAct.next)
        xs).1 =
      .openDispatch ::
        (specTrace bar_id total desc xs 0 ++ [.closeDispatch bar_id]) ∧
    (progressbarRun (some bar_id) total desc (fun _ => ConsumerAct.next)
        xs).2 = PBOutcome.exhausted := by
  constructor
  · simp [progressbarRun, pbarLoop_next]
  · simp [progressbarRun, pbarLoop_next]

/-! ## Claim C8 -/

/-- C8 counterexample: the claim states that under the non-interactive
`text_writer` stack the progress-bar effects are accepted by silent no-op
handlers.  In the code the non-interactive branch returns
`_text_writer_file`, which installs handlers only for `LogMessage`,
`FlushSink` and `FormatLogMessage`: every progress-bar effect kind has no
handler at all, so a dispatch of any of them fails with `NoHandler` instead
of being accepted. -/
theorem C8_counterexample :
    ([EffectKind.openProgressBar, EffectKind.closeProgressBar,
      EffectKind.setProgressBar, EffectKind.clearProgressBars,
      EffectKind.writeProgressBars].all
        (fun k => sendFailsNoHandler (textWriterKinds false) k)) = true := by
  decide

/-- C8 (amended): the non-interactive `text_writer` stack installs no
progress-bar handlers, so the `OpenProgressBar` dispatch inside
`progressbar` fails with `NoHandler`; iteration therefore degrades to plain
pass-through — it yields exactly the elements of the sequence without
raising to the user — and no progress-bar effect is dispatched, hence no
terminal control sequence is ever written to the sink on their account. -/
theorem C8_noninteractive_stack {α : Type} (total : Option Int)
    (desc : α → Option String) (xs : List α) :
    sendFailsNoHandler (textWriterKinds false) EffectKind.openProgressBar =
      true ∧
    (progressbarRun none total desc (fun _ => ConsumerAct.next) xs).1 =
      .openDispatch :: xs.map .yieldItem ∧
    (progressbarRun none total desc (fun _ => ConsumerAct.next) xs).2 =
      PBOutcome.exhausted := by
  refine ⟨by decide, ?_, ?_⟩ <;> simp [progressbarRun, passThrough_next]

/-! ## Claim C9 -/

/-- C9: handling `ClearProgressBars` with `n` registered bars writes to the
sink exactly a carriage return, then a cursor-up movement of `n - 1` lines
if and only if `n > 1`, then an erase-to-end-of-screen; handling
`WriteProgressBars` writes exactly a carriage return, each registered bar's
formatted line joined by newlines in registry (insertion) order, then an
erase-to-end-of-line after the block. -/
theorem C9_region_rendering (fmt : ProgressBar → String) (pbs : Registry) :
    clearProgressBarsWrites pbs =
      [carriageReturn] ++
        (if pbs.length > 1 then [cursorUpSeq (pbs.length - 1)] else []) ++
        [eraseToScreenEnd] ∧
    writeProgressBarsWrites fmt pbs =
      [carriageReturn,
        String.intercalate "\n" (pbs.map (fun p => fmt p.2)),
        eraseToLineEnd] := by
  constructor
  · rfl
  · rfl

end EffectsLogging
